import Mathlib

/-!
Verification of the bepass-org/proxy mixed-protocol forward proxy.

Byte streams are modelled as `List Nat` (each element a byte value, `< 256`
where it matters).  Reader-style Go functions over an `io.Reader` become
functions `List Nat → Option (α × List Nat)` consuming a prefix of the
stream and returning the parsed value together with the unread remainder;
`none` models an I/O error (short read).  Writers become pure functions
producing the emitted byte list.
-/

set_option maxRecDepth 4000

/-- One byte read, as in `readByte` (socks4 codec in internal/statute/statute.go):
reads a single byte from the stream, erroring on end of input. -/
def readByte1 : List Nat → Option (Nat × List Nat)
  | [] => none
  | b :: rest => some (b, rest)

/-- `readBytes` of the socks4 codec (internal/statute/statute.go): reads single
bytes until a NUL byte (0) is found, returning the bytes before the NUL.
An exhausted stream before the NUL is an error. -/
def readBytes4 : List Nat → Option (List Nat × List Nat)
  | [] => none
  | b :: rest =>
    if b = 0 then some ([], rest)
    else match readBytes4 rest with
      | none => none
      | some (buf, rem) => some (b :: buf, rem)

/-- `writeBytes` of the socks4 codec: writes the bytes then a terminating NUL. -/
def writeBytes4 (b : List Nat) : List Nat := b ++ [0]

/-- The socks4 codec's SOCKS4a sentinel `isSocks4a = []byte{0, 0, 0, 1}`
(internal/statute/statute.go). -/
def isSocks4aBytes : List Nat := [0, 0, 0, 1]

/-- The socks4 codec's `isNone = []byte{0, 0, 0, 0}`. -/
def isNoneBytes : List Nat := [0, 0, 0, 0]

/-- The `AddrAnfUser` record of the socks4 codec: a SOCKS4 address (either a
4-octet IP or a domain name, plus a port) together with the SOCKS4 username.
Go's zero values (`nil` IP, empty strings) are `none` / `[]`. -/
structure AddrAnfUser where
  port : Nat
  ip : Option (List Nat)
  name : List Nat
  username : List Nat
  deriving Repr, DecidableEq

/-- `readAddrAndUser` (internal/statute/statute.go): reads a 2-byte big-endian
port, 4 IP octets, and a NUL-terminated username; if the 4 octets equal the
sentinel `isSocks4a` it additionally reads a NUL-terminated hostname and sets
`name` (leaving `ip` nil), otherwise it sets `ip` to the 4 octets. -/
def readAddrAndUser (input : List Nat) : Option (AddrAnfUser × List Nat) :=
  match input with
  | p0 :: p1 :: i0 :: i1 :: i2 :: i3 :: rest =>
    let port := 256 * p0 + p1
    let ipOctets := [i0, i1, i2, i3]
    let socks4a := ipOctets = isSocks4aBytes
    match readBytes4 rest with
    | none => none
    | some (username, rest1) =>
      if socks4a then
        match readBytes4 rest1 with
        | none => none
        | some (hostname, rest2) =>
          some ({ port := port, ip := none, name := hostname, username := username }, rest2)
      else
        some ({ port := port, ip := some ipOctets, name := [], username := username }, rest1)
  | _ => none

/-- Big-endian 2-byte encoding of a port, as `binary.BigEndian.PutUint16`
applied to `uint16(port)` (truncation modulo 2^16). -/
def portBE (p : Nat) : List Nat := [(p % 65536) / 256, p % 256]

/-- `writeAddrAndUser` (internal/statute/statute.go): writes the 2-byte
big-endian port; then the 4 IP octets when the IP is present, the `isSocks4a`
sentinel when the IP is nil and the name non-empty, or `isNone` otherwise;
then the NUL-terminated username; and, in the sentinel case only, the
NUL-terminated hostname. -/
def writeAddrAndUser (a : AddrAnfUser) : List Nat :=
  portBE a.port ++
  (match a.ip with
   | some octets => octets ++ writeBytes4 a.username
   | none =>
     if a.name ≠ [] then
       isSocks4aBytes ++ writeBytes4 a.username ++ writeBytes4 a.name
     else
       isNoneBytes ++ writeBytes4 a.username)

/-- The SOCKS4 `address` record used in replies (IP and port; `name` is never
written by `writeAddr`). -/
structure S4Addr where
  ip : Option (List Nat)
  port : Nat
  deriving Repr, DecidableEq

/-- `writeAddr` (socks4 codec): 2-byte big-endian port (0 when the address is
nil), then the 4 IP octets, or `isNone` when the address or its IP is nil. -/
def writeAddr4 (a : Option S4Addr) : List Nat :=
  match a with
  | none => portBE 0 ++ isNoneBytes
  | some addr =>
    portBE addr.port ++
      (match addr.ip with
       | none => isNoneBytes
       | some octets => octets)

/-- `sendReply` of the SOCKS4 servers: writes `{0, code}` then the address via
`writeAddr`. -/
def sendReply4 (code : Nat) (addr : Option S4Addr) : List Nat :=
  [0, code] ++ writeAddr4 addr

/-- SOCKS4 reply code `grantedReply = 0x5a`. -/
def grantedReply : Nat := 0x5a

/-- SOCKS4 reply code `rejectedReply = 0x5b`. -/
def rejectedReply : Nat := 0x5b

-- A helper: `readBytes4` inverts `writeBytes4` on NUL-free payloads.
theorem readBytes4_writeBytes4 (u rest : List Nat) (hu : 0 ∉ u) :
    readBytes4 (u ++ 0 :: rest) = some (u, rest) := by
  induction u with
  | nil => simp [readBytes4]
  | cons b bs ih =>
    have hb : b ≠ 0 := fun h => hu (h ▸ List.mem_cons_self b bs)
    have hbs : 0 ∉ bs := fun h => hu (List.mem_cons_of_mem b h)
    simp [readBytes4, hb, ih hbs]

/-! ## SOCKS5 wire codec

The SOCKS5 codec source file of the repository is not under src/ (only its
caller internal/socks5/server.go is); the definitions below are modelled
from the spec. -/

/-- SOCKS5 method constant `noAuth = 0x00`. -/
def noAuth : Nat := 0x00

/-- SOCKS5 method constant `noAcceptable = 0xff`. -/
def noAcceptable : Nat := 0xff

/-- SOCKS5 version byte. -/
def socks5Version : Nat := 0x05

/-- SOCKS5 reply code `successReply = 0x00`. -/
def successReply : Nat := 0x00

/-- SOCKS5 reply code `commandNotSupported = 0x07`. -/
def commandNotSupported : Nat := 0x07

/-- SOCKS5 reply code `addrTypeNotSupported = 0x08`. -/
def addrTypeNotSupported : Nat := 0x08

/-- Modelled from the spec: the SOCKS5 codec's `readBytes`, used by
`Server.ServeConn` to read the greeting's method list, which per the spec
has the wire shape `NMETHODS, METHODS[NMETHODS]`: a 1-byte count followed
by that many method bytes. -/
def readBytes5 : List Nat → Option (List Nat × List Nat)
  | [] => none
  | n :: rest =>
    if n ≤ rest.length then some (rest.take n, rest.drop n)
    else none

/-- The host part of a SOCKS5 address: ATYP 0x01 carries 4 IPv4 octets,
ATYP 0x03 a length-prefixed domain name, ATYP 0x04 16 IPv6 octets. -/
inductive S5Host where
  | ipv4 (octets : List Nat)
  | domain (name : List Nat)
  | ipv6 (octets : List Nat)
  deriving Repr, DecidableEq

/-- A SOCKS5 address record: host plus port. -/
structure S5Addr where
  host : S5Host
  port : Nat
  deriving Repr, DecidableEq

/-- Errors of the SOCKS5 address reader: the distinguished
`errUnrecognizedAddrType` on an unknown ATYP byte, or a short read. -/
inductive S5AddrErr where
  | unrecognizedAddrType
  | shortRead
  deriving Repr, DecidableEq

/-- Modelled from the spec: the SOCKS5 codec's `readAddr`
(`read_socks5_addr`): reads the ATYP byte, then 4 octets (ATYP 0x01), a
1-byte length and that many name bytes (ATYP 0x03), or 16 octets
(ATYP 0x04), then the 2-byte big-endian port; any other ATYP fails with
`errUnrecognizedAddrType`. -/
def readAddr5 (input : List Nat) : Except S5AddrErr (S5Addr × List Nat) :=
  match input with
  | [] => .error .shortRead
  | atyp :: rest =>
    if atyp = 0x01 then
      match rest with
      | a :: b :: c :: d :: p0 :: p1 :: rem =>
        .ok ({ host := .ipv4 [a, b, c, d], port := 256 * p0 + p1 }, rem)
      | _ => .error .shortRead
    else if atyp = 0x03 then
      match rest with
      | n :: rest1 =>
        if h : n + 2 ≤ rest1.length then
          let name := rest1.take n
          let p0 := rest1.get ⟨n, by omega⟩
          let p1 := rest1.get ⟨n + 1, by omega⟩
          .ok ({ host := .domain name, port := 256 * p0 + p1 }, rest1.drop (n + 2))
        else .error .shortRead
      | _ => .error .shortRead
    else if atyp = 0x04 then
      if h : 18 ≤ rest.length then
        let octets := rest.take 16
        let p0 := rest.get ⟨16, by omega⟩
        let p1 := rest.get ⟨17, by omega⟩
        .ok ({ host := .ipv6 octets, port := 256 * p0 + p1 }, rest.drop 18)
      else .error .shortRead
    else .error .unrecognizedAddrType

/-- Modelled from the spec: the SOCKS5 codec's `writeAddr`
(`write_socks5_addr`): a nil address is written as ATYP IPv4 with address
`0.0.0.0:0`; otherwise the ATYP byte, host octets (length-prefixed for a
domain), and big-endian port. -/
def writeAddr5 (a : Option S5Addr) : List Nat :=
  match a with
  | none => [0x01, 0, 0, 0, 0, 0, 0]
  | some addr =>
    (match addr.host with
     | .ipv4 octets => 0x01 :: octets
     | .domain name => 0x03 :: name.length :: name
     | .ipv6 octets => 0x04 :: octets) ++ portBE addr.port

/-- `sendReply` of the SOCKS5 server (internal/socks5/server.go): writes
`{socks5Version, code, 0}` then the bind address via `writeAddr`. -/
def sendReply5 (code : Nat) (addr : Option S5Addr) : List Nat :=
  socks5Version :: code :: 0 :: writeAddr5 addr

/-! ## SOCKS5 ServeConn (internal/socks5/server.go) -/

/-- The outcome of `Server.ServeConn` on the SOCKS5 server, with the final
`s.handle(req)` dispatch abstracted as `dispatch`: the command byte, the
parsed destination address, and the bytes left unread on the connection. -/
inductive S5Outcome where
  | shortRead
  | badVersion (v : Nat)
  | noSupportedAuth
  | badCmdVersion (v : Nat)
  | addrErr (e : S5AddrErr)
  | dispatch (cmd : Nat) (dest : S5Addr) (rest : List Nat)
  deriving Repr, DecidableEq

/-- The request phase of the SOCKS5 `Server.ServeConn` (after the greeting
reply): reads the 3-byte header `{VER, CMD, RSV}`, requires `VER = 0x05`
(RSV is not checked), then parses the destination address with `readAddr`;
when that fails with `errUnrecognizedAddrType` the reply
`addrTypeNotSupported` is sent before the error is returned, while any
other parse error is returned without a reply.  Returns the bytes written
to the client and the outcome. -/
def socks5RequestPhase (input : List Nat) : List Nat × S5Outcome :=
  match input with
  | h0 :: h1 :: _h2 :: rest =>
    if h0 ≠ socks5Version then ([], .badCmdVersion h0)
    else
      match readAddr5 rest with
      | .error e =>
        if e = .unrecognizedAddrType then
          (sendReply5 addrTypeNotSupported none, .addrErr e)
        else ([], .addrErr e)
      | .ok (dest, rem) => ([], .dispatch h1 dest rem)
  | _ => ([], .shortRead)

/-- `Server.ServeConn` of the SOCKS5 server: reads the version byte
(must be 0x05), reads the method list with `readBytes`; if it contains
`noAuth` (0x00) replies `{05, 00}` and proceeds to the request phase,
otherwise replies `{05, FF}` and fails with `errNoSupportedAuth`.
Returns the bytes written to the client and the outcome. -/
def socks5ServeConn (input : List Nat) : List Nat × S5Outcome :=
  match input with
  | [] => ([], .shortRead)
  | v :: rest =>
    if v ≠ socks5Version then ([], .badVersion v)
    else
      match readBytes5 rest with
      | none => ([], .shortRead)
      | some (methods, rest1) =>
        if noAuth ∈ methods then
          let (w, out) := socks5RequestPhase rest1
          ([socks5Version, noAuth] ++ w, out)
        else
          ([socks5Version, noAcceptable], .noSupportedAuth)

/-! ## Protocol demultiplexers -/

/-- The three protocol engines a demultiplexer can hand a connection to. -/
inductive Engine where
  | socks5
  | socks4
  | http
  deriving Repr, DecidableEq

/-- The `SwitchConn` of pkg/mixed/proxy.go: a connection wrapped with a
`bufio.Reader`.  `buffered` holds bytes pushed back at the reader's head
(by `UnreadByte`); `stream` holds the bytes not yet read from the
underlying connection. -/
structure SwitchConn where
  buffered : List Nat
  stream : List Nat
  deriving Repr, DecidableEq

/-- `SwitchConn.Read` of a single byte: serves the pushed-back byte first,
then the underlying stream; end of input is a read error. -/
def SwitchConn.read1 : SwitchConn → Option (Nat × SwitchConn)
  | ⟨[], []⟩ => none
  | ⟨[], b :: s⟩ => some (b, ⟨[], s⟩)
  | ⟨b :: u, s⟩ => some (b, ⟨u, s⟩)

/-- `bufio.Reader.UnreadByte`: restores the byte at the reader's head. -/
def SwitchConn.unreadByte (b : Nat) (c : SwitchConn) : SwitchConn :=
  ⟨b :: c.buffered, c.stream⟩

/-- All bytes a subsequent reader (the engine) will observe from the
wrapped connection. -/
def SwitchConn.observed (c : SwitchConn) : List Nat :=
  c.buffered ++ c.stream

/-- `Proxy.handleConnection` of pkg/mixed/proxy.go: wraps the accepted
connection in a `SwitchConn`, reads one byte, unreads it, and dispatches on
its value — 5 to the SOCKS5 engine, 4 to SOCKS4, anything else to HTTP.
Returns the selected engine and the byte stream that engine observes, or
`none` when the initial read fails. -/
def mixedHandleConnection (client : List Nat) : Option (Engine × List Nat) :=
  let sc : SwitchConn := ⟨[], client⟩
  match sc.read1 with
  | none => none
  | some (b, sc1) =>
    let sc2 := sc1.unreadByte b
    let engine := if b = 5 then Engine.socks5 else if b = 4 then Engine.socks4 else Engine.http
    some (engine, sc2.observed)

/-- `handleConnection` of src/unnamed/part_000: reads (up to) 3 bytes from
the raw connection into a zero-initialized buffer without restoring them,
then dispatches on the buffer: first byte 5 to SOCKS5, 4 to SOCKS4, the
prefix `"CON"` to HTTP, and anything else to no engine at all ("Unknown
protocol").  Returns the engine chosen (if any) and the byte stream the
engine observes — the client bytes after the consumed prefix. -/
def part000HandleConnection (client : List Nat) : Option Engine × List Nat :=
  match client with
  | [] => (none, [])
  | _ =>
    let buf := client.take 3 ++ List.replicate (3 - client.length) 0
    let rest := client.drop 3
    let b0 := buf.getD 0 0
    let b1 := buf.getD 1 0
    let b2 := buf.getD 2 0
    if b0 = 5 then (some Engine.socks5, rest)
    else if b0 = 4 then (some Engine.socks4, rest)
    else if b0 = 67 ∧ b1 = 79 ∧ b2 = 78 then (some Engine.http, rest)
    else (none, rest)

/-! ## Tunnel engine (internal/statute/statute.go) -/

/-- Go error values the tunnel model distinguishes: `context.Canceled`,
`context.DeadlineExceeded`, `io.EOF`, and anything else. -/
inductive GoErr where
  | canceled
  | deadlineExceeded
  | eof
  | other (n : Nat)
  deriving Repr, DecidableEq

/-- `tunnelErr.FirstError`: the first non-nil error of the list, or nil. -/
def firstError : List (Option GoErr) → Option GoErr
  | [] => none
  | none :: rest => firstError rest
  | some e :: _ => some e

/-- The error aggregation of `tunnel` (internal/statute/statute.go): the
five error slots are the two copier errors, the two `Close` errors and the
context error; a context error equal to `context.Canceled` is overwritten
with nil, and `FirstError` of the array is returned. -/
def tunnelResult (e0 e1 closeErr1 closeErr2 ctxErr : Option GoErr) : Option GoErr :=
  let e4 := if ctxErr = some GoErr.canceled then none else ctxErr
  firstError [e0, e1, closeErr1, closeErr2, e4]

/-- The two endpoints of a built-in SOCKS tunnel: the accepted client
connection and the dialed upstream connection. -/
inductive CloseEnd where
  | client
  | target
  deriving Repr, DecidableEq

/-- The `Close` calls `tunnel(ctx, c1, c2, ...)` performs on exit, in
order: `c1.Close()` then `c2.Close()` — each endpoint exactly once. -/
def tunnelCloses (c1 c2 : CloseEnd) : List CloseEnd := [c1, c2]

/-- Observable events of the SOCKS5 `embedHandleConnect`. -/
inductive ConnectEv where
  | wrote (bs : List Nat)
  | close (e : CloseEnd)
  deriving Repr, DecidableEq

/-- `Server.embedHandleConnect` of internal/socks5/server.go, as the trace
of writes and `Close` calls it performs.  The function defers
`req.Conn.Close()` on entry and `target.Close()` after a successful dial.
On dial failure it sends the mapped error reply (its code here a
parameter, `dialErrReply`) and returns, running only the client-close
defer.  On success it sends the success reply with the dialed socket's
local address, runs `tunnel(ctx, target, req.Conn, ...)` — which closes
target then client — and then its two defers close target and client once
more (LIFO order). -/
def socks5EmbedHandleConnect (dialOk : Bool) (dialErrReply : Nat) (bind : S5Addr) :
    List ConnectEv :=
  if dialOk then
    [ConnectEv.wrote (sendReply5 successReply (some bind))]
      ++ (tunnelCloses CloseEnd.target CloseEnd.client).map ConnectEv.close
      ++ [ConnectEv.close CloseEnd.target, ConnectEv.close CloseEnd.client]
  else
    [ConnectEv.wrote (sendReply5 dialErrReply none), ConnectEv.close CloseEnd.client]

/-- Number of `Close` calls an `embedHandleConnect` trace performs on a
given endpoint. -/
def closeCount (tr : List ConnectEv) (e : CloseEnd) : Nat :=
  tr.count (ConnectEv.close e)

/-! ## SOCKS4 servers -/

/-- The outcome of the SOCKS4 `Server.ServeConn` of
internal/socks4/server.go, with the CONNECT handling abstracted as
`connect`. -/
inductive S4Outcome where
  | shortRead
  | badVersion (v : Nat)
  | addrParseErr
  | connect (addr : AddrAnfUser) (rest : List Nat)
  | unsupportedCmd (cmd : Nat)
  deriving Repr, DecidableEq

/-- `Server.ServeConn` + `Server.handle` of internal/socks4/server.go:
reads the version byte (must be 4) and the command byte, parses the
address-and-user record (on failure sending a `rejectedReply` before
returning the error), then dispatches: command 1 (CONNECT) is handled,
and any other command — including 2 (BIND) — is answered with
`rejectedReply` and an unsupported-command error.  Returns the bytes
written to the client and the outcome. -/
def socks4ServeConn (input : List Nat) : List Nat × S4Outcome :=
  match input with
  | [] => ([], .shortRead)
  | v :: rest =>
    if v ≠ 4 then ([], .badVersion v)
    else
      match rest with
      | [] => ([], .shortRead)
      | cmd :: rest1 =>
        match readAddrAndUser rest1 with
        | none => (sendReply4 rejectedReply none, .addrParseErr)
        | some (addr, rest2) =>
          if cmd = 1 then ([], .connect addr rest2)
          else (sendReply4 rejectedReply none, .unsupportedCmd cmd)

/-- Command dispatch of `Server.handle` in the statute-variant SOCKS4
server (the second socks4 server in internal/statute/statute.go):
command 1 goes to `handleConnect`, command 2 to `handleBind`, and anything
else is rejected. -/
inductive S4Dispatch where
  | connect
  | bind
  | reject
  deriving Repr, DecidableEq

/-- The statute-variant `Server.handle` dispatch. -/
def statuteSocks4Handle (cmd : Nat) : S4Dispatch :=
  if cmd = 1 then .connect else if cmd = 2 then .bind else .reject

/-- Observable events of the statute-variant `Server.handleBind`. -/
inductive BindEv where
  | listen
  | wroteReply (code : Nat) (addr : Option S4Addr)
  | acceptOne
  | closeListener
  | tunnelStart
  deriving Repr, DecidableEq

/-- The success path of the statute-variant `Server.handleBind`
(internal/statute/statute.go): listen on the requested destination, send a
`grantedReply` carrying the listener's local address, accept one inbound
connection, close the listener, send a second `grantedReply` carrying the
accepted peer's remote address, and start the tunnel between the accepted
connection and the client. -/
def statuteHandleBindTrace (bindLocal peer : S4Addr) : List BindEv :=
  [BindEv.listen,
   BindEv.wroteReply grantedReply (some bindLocal),
   BindEv.acceptOne,
   BindEv.closeListener,
   BindEv.wroteReply grantedReply (some peer),
   BindEv.tunnelStart]

/-! ## SOCKS5 UDP relay (Server.embedHandleAssociate, internal/socks5/server.go)

Network addresses are compared by the Go code through their `String()`
renderings; those renderings (from Go's net package, external to the
repository) are modelled below as injective byte-string encodings with the
same shape (`host:port`, decimal port, dotted-decimal IPv4, a bracketed
encoding for IPv6, the empty host for a nil IP). -/

/-- ASCII decimal rendering of a natural number. -/
def decStr (n : Nat) : List Nat := (Nat.toDigits 10 n).map Char.toNat

/-- Dotted rendering of a list of octets (dot = byte 46). -/
def dottedDec : List Nat → List Nat
  | [] => []
  | [x] => decStr x
  | x :: xs => decStr x ++ 46 :: dottedDec xs

/-- Rendering of an optional IP: empty for nil, dotted decimal for a
4-octet IPv4, a bracketed dotted encoding for anything longer (modelling
net's bracketed IPv6 text form injectively). -/
def ipStr : Option (List Nat) → List Nat
  | none => []
  | some o => if o.length = 4 then dottedDec o else 91 :: (dottedDec o ++ [93])

/-- `net.JoinHostPort`-shaped rendering: host, colon (58), decimal port. -/
def joinHostPort (h : List Nat) (p : Nat) : List Nat := h ++ 58 :: decStr p

/-- A UDP network address (`*net.UDPAddr`): optional IP octets and port. -/
structure UAddr where
  ip : Option (List Nat)
  port : Nat
  deriving Repr, DecidableEq

/-- `net.UDPAddr.String()` as modelled rendering. -/
def UAddr.str (a : UAddr) : List Nat := joinHostPort (ipStr a.ip) a.port

/-- The `String()` of a parsed SOCKS5 `address` (its `Address()` method):
the domain name when present, otherwise the IP rendering, joined with the
port. -/
def s5AddrStr (a : S5Addr) : List Nat :=
  match a.host with
  | .domain n => joinHostPort n a.port
  | .ipv4 o => joinHostPort (ipStr (some o)) a.port
  | .ipv6 o => joinHostPort (ipStr (some o)) a.port

/-- The `&net.UDPAddr{IP: addr.IP, Port: addr.Port}` the relay latches as
`targetAddr` from a parsed header address: a domain-typed address carries
a nil IP. -/
def addrToUDP (a : S5Addr) : UAddr :=
  match a.host with
  | .domain _ => ⟨none, a.port⟩
  | .ipv4 o => ⟨some o, a.port⟩
  | .ipv6 o => ⟨some o, a.port⟩

/-- Modelled from the spec: the reply prefix the relay builds once — three
zero bytes followed by the encoding of the latched target address.  The Go
code renders `wantTarget` to a string and re-encodes it with the missing
codec's `writeAddrWithStr` (`write_socks5_addr` after `SplitHostPort` and
`ParseIP`); modelled directly from the latched `UAddr`: a 4-octet IP is
written as ATYP IPv4, a longer one as ATYP IPv6, and a nil IP as an empty
domain name. -/
def mkReplyHeader (t : UAddr) : List Nat :=
  [0, 0, 0] ++
    writeAddr5 (some
      { host :=
          match t.ip with
          | some o => if o.length = 4 then S5Host.ipv4 o else S5Host.ipv6 o
          | none => S5Host.domain []
        port := t.port })

/-- The mutable state of one UDP association in
`Server.embedHandleAssociate`: the latched source and target addresses,
their cached string renderings, and the cached reply prefix. -/
structure AssocState where
  sourceAddr : Option UAddr
  wantSource : List Nat
  targetAddr : Option UAddr
  wantTarget : List Nat
  replyCache : Option (List Nat)
  deriving Repr, DecidableEq

/-- The initial association state: nothing latched. -/
def initAssocState : AssocState := ⟨none, [], none, [], none⟩

/-- One iteration of the `Server.embedHandleAssociate` loop on a received
datagram (`src` its sender, `data` its bytes), on the success path of the
UDP writes.  Latches `sourceAddr` on the first datagram; for a datagram
from the source: requires at least 3 bytes, parses the SOCKS5 address at
offset 3 (malformed packets are logged at debug and skipped), latches
`targetAddr` on first parse, drops (debug log, no forward) any packet
whose parsed address string differs from the latched target string, and
otherwise forwards the payload after the header to the target.  For a
datagram from the latched target: builds and caches the reply prefix once,
and sends prefix-plus-datagram back to the source.  Datagrams from any
other sender are ignored.  Returns the new state and the forwarded
datagram (bytes and destination), if any. -/
def assocStep (s : AssocState) (src : UAddr) (data : List Nat) :
    AssocState × Option (List Nat × UAddr) :=
  let s1 := if s.sourceAddr = none
            then { s with sourceAddr := some src, wantSource := src.str }
            else s
  let got := src.str
  if s1.wantSource = got then
    if data.length < 3 then (s1, none)
    else
      match readAddr5 (data.drop 3) with
      | .error _ => (s1, none)
      | .ok (addr, rest) =>
        let s2 := if s1.targetAddr = none
                  then { s1 with targetAddr := some (addrToUDP addr),
                                 wantTarget := (addrToUDP addr).str }
                  else s1
        if s5AddrStr addr ≠ s2.wantTarget then (s2, none)
        else
          match s2.targetAddr with
          | some t => (s2, some (rest, t))
          | none => (s2, none)
  else if s1.targetAddr.isSome ∧ s1.wantTarget = got then
    let pre :=
      match s1.replyCache with
      | some p => p
      | none =>
        match s1.targetAddr with
        | some t => mkReplyHeader t
        | none => []
    let s2 := { s1 with replyCache := some pre }
    (s2, some (pre ++ data, s1.sourceAddr.getD ⟨none, 0⟩))
  else (s1, none)

/-- The relay loop over a whole sequence of received datagrams: folds
`assocStep`, collecting the forwarded datagrams. -/
def assocRun (s : AssocState) : List (UAddr × List Nat) → AssocState × List (List Nat × UAddr)
  | [] => (s, [])
  | (src, data) :: ds =>
    let (s1, out) := assocStep s src data
    let (s2, outs) := assocRun s1 ds
    (s2, (match out with | none => [] | some o => [o]) ++ outs)

/-! ## Claim theorems -/

/-- C4: `tunnel` returns the first non-nil error in the fixed order
[copier c2→c1 error, copier c1→c2 error, Close(c1) error, Close(c2) error,
context error], where a context error equal to `context.Canceled` is
normalized to nil, and returns nil when all five are nil. -/
theorem tunnel_first_error_order :
    (∀ (x : GoErr) (e1 c1 c2 ce : Option GoErr),
        tunnelResult (some x) e1 c1 c2 ce = some x) ∧
    (∀ (x : GoErr) (c1 c2 ce : Option GoErr),
        tunnelResult none (some x) c1 c2 ce = some x) ∧
    (∀ (x : GoErr) (c2 ce : Option GoErr),
        tunnelResult none none (some x) c2 ce = some x) ∧
    (∀ (x : GoErr) (ce : Option GoErr),
        tunnelResult none none none (some x) ce = some x) ∧
    (∀ (e : GoErr), tunnelResult none none none none (some e) =
        if e = GoErr.canceled then none else some e) ∧
    tunnelResult none none none none none = none := by
  refine ⟨?_, ?_, ?_, ?_, ?_, ?_⟩
  · intro x e1 c1 c2 ce; simp [tunnelResult, firstError]
  · intro x c1 c2 ce; simp [tunnelResult, firstError]
  · intro x c2 ce; simp [tunnelResult, firstError]
  · intro x ce; simp [tunnelResult, firstError]
  · intro e
    by_cases h : e = GoErr.canceled <;> simp [tunnelResult, firstError, h]
  · simp [tunnelResult, firstError]

/-- Whether 4 octets have the claim's hostname-sentinel form `0.0.0.x`
with `x ≠ 0`. -/
def sentinelForm : List Nat → Bool
  | [0, 0, 0, x] => x != 0
  | _ => false

-- Helper: `readAddrAndUser` on a stream carrying a non-sentinel IP record.
theorem readAddrAndUser_eval_ip (p0 p1 i0 i1 i2 i3 : Nat) (u rest : List Nat)
    (hu : 0 ∉ u) (hip : [i0, i1, i2, i3] ≠ isSocks4aBytes) :
    readAddrAndUser (p0 :: p1 :: i0 :: i1 :: i2 :: i3 :: (u ++ 0 :: rest)) =
      some (⟨256 * p0 + p1, some [i0, i1, i2, i3], [], u⟩, rest) := by
  simp [readAddrAndUser, readBytes4_writeBytes4 u rest hu, hip]

-- Helper: `readAddrAndUser` on a stream carrying the code's sentinel
-- `0.0.0.1` followed by username and hostname.
theorem readAddrAndUser_eval_4a (p0 p1 : Nat) (u h rest : List Nat)
    (hu : 0 ∉ u) (hh : 0 ∉ h) :
    readAddrAndUser (p0 :: p1 :: 0 :: 0 :: 0 :: 1 :: (u ++ 0 :: (h ++ 0 :: rest))) =
      some (⟨256 * p0 + p1, none, h, u⟩, rest) := by
  simp [readAddrAndUser, isSocks4aBytes, readBytes4_writeBytes4 u _ hu,
    readBytes4_writeBytes4 h rest hh]

/-- C10 (amended; see the counterexample-free confirmation): reading back
the bytes produced by `writeAddrAndUser` yields the same record, for every
record whose port is in 0..65535, whose username and name are NUL-free,
and which carries either a 4-octet IP not of the hostname-sentinel form
(with no name) or a nil IP with a non-empty name. -/
theorem writeAddrAndUser_readAddrAndUser_roundtrip (a : AddrAnfUser)
    (hport : a.port < 65536)
    (huser : 0 ∉ a.username)
    (hname : 0 ∉ a.name)
    (hcase : (∃ o, a.ip = some o ∧ o.length = 4 ∧ sentinelForm o = false ∧ a.name = []) ∨
             (a.ip = none ∧ a.name ≠ [])) :
    readAddrAndUser (writeAddrAndUser a) = some (a, []) := by
  obtain ⟨port, ip, name, username⟩ := a
  rcases hcase with ⟨o, hip, hlen, hsent, hnm⟩ | ⟨hip, hnm⟩
  · simp only at hip hnm
    subst hip hnm
    rcases o with _ | ⟨i0, _ | ⟨i1, _ | ⟨i2, _ | ⟨i3, _ | ⟨x, o⟩⟩⟩⟩⟩ <;>
      simp_all [List.length]
    have hip4 : [i0, i1, i2, i3] ≠ isSocks4aBytes := by
      intro h
      rw [isSocks4aBytes] at h
      obtain ⟨h0, h1, h2, h3⟩ : i0 = 0 ∧ i1 = 0 ∧ i2 = 0 ∧ i3 = 1 := by
        simpa using h
      subst h0; subst h1; subst h2; subst h3
      simp [sentinelForm] at hsent
    have := readAddrAndUser_eval_ip ((port % 65536) / 256) (port % 256) i0 i1 i2 i3
      username [] huser hip4
    simp only [writeAddrAndUser, portBE, writeBytes4]
    simp only [List.cons_append, List.nil_append, List.append_assoc] at this ⊢
    rw [this]
    have hmod : port % 65536 = port := Nat.mod_eq_of_lt hport
    simp [hmod, Nat.div_add_mod]
  · simp only at hip hnm
    subst hip
    have := readAddrAndUser_eval_4a ((port % 65536) / 256) (port % 256)
      username name [] huser hname
    simp only [writeAddrAndUser, portBE, writeBytes4, isSocks4aBytes]
    rw [if_pos hnm]
    simp only [List.cons_append, List.nil_append, List.append_assoc] at this ⊢
    rw [this]
    have hmod : port % 65536 = port := Nat.mod_eq_of_lt hport
    simp [hmod, Nat.div_add_mod]

/-- Witness for C10 at concrete records, one per branch. -/
theorem writeAddrAndUser_readAddrAndUser_roundtrip_witness :
    readAddrAndUser (writeAddrAndUser ⟨80, some [1, 2, 3, 4], [], [117]⟩) =
      some (⟨80, some [1, 2, 3, 4], [], [117]⟩, []) ∧
    readAddrAndUser (writeAddrAndUser ⟨443, none, [104, 105], [117]⟩) =
      some (⟨443, none, [104, 105], [117]⟩, []) :=
  ⟨writeAddrAndUser_readAddrAndUser_roundtrip _ (by decide) (by decide) (by decide)
      (Or.inl ⟨[1, 2, 3, 4], rfl, rfl, by decide, rfl⟩),
    writeAddrAndUser_readAddrAndUser_roundtrip _ (by decide) (by decide) (by decide)
      (Or.inr ⟨rfl, by decide⟩)⟩

/-- C6 counterexample: the input carries IP octets `0.0.0.2` — of the
claimed hostname-sentinel form `0.0.0.x` with `x ≠ 0` — followed by
username `"u"` and hostname `"h"`, yet `readAddrAndUser` returns the
octets as the destination IP, reads no hostname, and leaves the hostname
bytes unconsumed. -/
theorem readAddrAndUser_sentinel_counterexample :
    sentinelForm [0, 0, 0, 2] = true ∧
    readAddrAndUser [0, 80, 0, 0, 0, 2, 117, 0, 104, 0] =
      some (⟨80, some [0, 0, 0, 2], [], [117]⟩, [104, 0]) ∧
    (readAddrAndUser [0, 80, 0, 0, 0, 2, 117, 0, 104, 0]).map
        (fun p => ((p.1).name, p.2)) ≠ some ([104], []) := by
  refine ⟨by decide, by decide, by decide⟩

/-- C6 (amended): `readAddrAndUser` reads a 2-byte big-endian port, 4 IP
octets, and a NUL-terminated username; it reads an additional
NUL-terminated hostname and returns it as the destination name exactly
when the 4 octets are `0.0.0.1` (the code's `isSocks4a` sentinel), and
for any other octets — including other `0.0.0.x` with `x ≠ 0` — it
returns the 4 octets as the destination IP and reads no hostname. -/
theorem readAddrAndUser_sentinel_exactly_one (p0 p1 i0 i1 i2 i3 : Nat)
    (u h rest : List Nat) (hu : 0 ∉ u) (hh : 0 ∉ h) :
    ([i0, i1, i2, i3] = isSocks4aBytes →
      readAddrAndUser (p0 :: p1 :: i0 :: i1 :: i2 :: i3 :: (u ++ 0 :: (h ++ 0 :: rest))) =
        some (⟨256 * p0 + p1, none, h, u⟩, rest)) ∧
    ([i0, i1, i2, i3] ≠ isSocks4aBytes →
      ∀ rest2, readAddrAndUser (p0 :: p1 :: i0 :: i1 :: i2 :: i3 :: (u ++ 0 :: rest2)) =
        some (⟨256 * p0 + p1, some [i0, i1, i2, i3], [], u⟩, rest2)) := by
  constructor
  · intro hip
    obtain ⟨h0, h1, h2, h3⟩ : i0 = 0 ∧ i1 = 0 ∧ i2 = 0 ∧ i3 = 1 := by
      simpa [isSocks4aBytes] using hip
    subst h0; subst h1; subst h2; subst h3
    exact readAddrAndUser_eval_4a p0 p1 u h rest hu hh
  · intro hip rest2
    exact readAddrAndUser_eval_ip p0 p1 i0 i1 i2 i3 u rest2 hu hip

/-- Witness for the amended C6, exercising both branches. -/
theorem readAddrAndUser_sentinel_exactly_one_witness :
    readAddrAndUser [0, 80, 0, 0, 0, 1, 117, 0, 104, 0] =
      some (⟨80, none, [104], [117]⟩, []) ∧
    readAddrAndUser [0, 80, 0, 0, 0, 2, 117, 0] =
      some (⟨80, some [0, 0, 0, 2], [], [117]⟩, []) :=
  ⟨(readAddrAndUser_sentinel_exactly_one 0 80 0 0 0 1 [117] [104] []
      (by decide) (by decide)).1 (by decide),
   (readAddrAndUser_sentinel_exactly_one 0 80 0 0 0 2 [117] [] []
      (by decide) (by decide)).2 (by decide) []⟩

/-- C7 counterexample: a SOCKS4 BIND request (command byte 2) to the
internal/socks4 engine is answered with `rejectedReply` (0x5B) and an
unsupported-command error — no listener is opened, no `0x5A` reply sent. -/
theorem socks4_bind_rejected_counterexample :
    socks4ServeConn [4, 2, 0, 80, 1, 2, 3, 4, 0] =
      (sendReply4 rejectedReply none, S4Outcome.unsupportedCmd 2) ∧
    sendReply4 rejectedReply none = [0, 0x5b, 0, 0, 0, 0, 0, 0] := by
  refine ⟨by decide, by decide⟩

/-- C7 (amended): the internal/socks4 engine supports only CONNECT and
answers a BIND request with `rejectedReply` and an unsupported-command
error; the statute-variant SOCKS4 server dispatches command 2 to
`handleBind`, whose success path listens on the supplied destination,
replies 0x5A with the listener's local address, accepts exactly one
inbound connection, closes the listener, replies 0x5A a second time with
the accepted peer's address, and then tunnels. -/
theorem socks4_bind_behaviour (p0 p1 i0 i1 i2 i3 : Nat) (u rest : List Nat)
    (hu : 0 ∉ u) (hip : [i0, i1, i2, i3] ≠ isSocks4aBytes) :
    socks4ServeConn (4 :: 2 :: p0 :: p1 :: i0 :: i1 :: i2 :: i3 :: (u ++ 0 :: rest)) =
      (sendReply4 rejectedReply none, S4Outcome.unsupportedCmd 2) ∧
    statuteSocks4Handle 2 = S4Dispatch.bind ∧
    (∀ bindLocal peer : S4Addr,
      let tr := statuteHandleBindTrace bindLocal peer
      tr.length = 6 ∧
      tr.get? 0 = some BindEv.listen ∧
      tr.get? 1 = some (BindEv.wroteReply grantedReply (some bindLocal)) ∧
      tr.get? 2 = some BindEv.acceptOne ∧
      tr.get? 3 = some BindEv.closeListener ∧
      tr.get? 4 = some (BindEv.wroteReply grantedReply (some peer)) ∧
      tr.get? 5 = some BindEv.tunnelStart) := by
  refine ⟨?_, by decide, ?_⟩
  · simp [socks4ServeConn, readAddrAndUser_eval_ip p0 p1 i0 i1 i2 i3 u rest hu hip]
  · intro bindLocal peer
    refine ⟨rfl, rfl, rfl, rfl, rfl, rfl, rfl⟩

/-- Witness for the amended C7 at a concrete BIND request. -/
theorem socks4_bind_behaviour_witness :
    socks4ServeConn (4 :: 2 :: 0 :: 80 :: 1 :: 2 :: 3 :: 4 :: ([117] ++ 0 :: [])) =
      (sendReply4 rejectedReply none, S4Outcome.unsupportedCmd 2) :=
  (socks4_bind_behaviour 0 80 1 2 3 4 [117] [] (by decide) (by decide)).1

-- Helper: evaluating the SOCKS5 greeting phase of `ServeConn` on a
-- well-formed method list.
theorem socks5ServeConn_greeting_eval (methods rest : List Nat) :
    socks5ServeConn (socks5Version :: methods.length :: (methods ++ rest)) =
      if noAuth ∈ methods then
        ([socks5Version, noAuth] ++ (socks5RequestPhase rest).1, (socks5RequestPhase rest).2)
      else ([socks5Version, noAcceptable], S5Outcome.noSupportedAuth) := by
  have hlen : methods.length ≤ (methods ++ rest).length := by
    simp [List.length_append]
  simp only [socks5ServeConn, readBytes5, if_neg (by simp : ¬socks5Version ≠ socks5Version),
    if_pos hlen, List.take_left, List.drop_left]

/-- C5: in the SOCKS5 greeting, a method list containing 0x00 is answered
with the two bytes `05 00` and `ServeConn` proceeds to read the request
(the request phase runs on the remaining stream); any other method list is
answered with `05 FF` and `ServeConn` returns the no-supported-auth error
without reading a request. -/
theorem socks5_greeting_noauth (n : Nat) (methods rest : List Nat)
    (hlen : methods.length = n) :
    (noAuth ∈ methods →
      socks5ServeConn (socks5Version :: n :: (methods ++ rest)) =
        ([socks5Version, noAuth] ++ (socks5RequestPhase rest).1,
         (socks5RequestPhase rest).2)) ∧
    (noAuth ∉ methods →
      socks5ServeConn (socks5Version :: n :: (methods ++ rest)) =
        ([socks5Version, noAcceptable], S5Outcome.noSupportedAuth)) := by
  subst hlen
  constructor
  · intro hm
    rw [socks5ServeConn_greeting_eval, if_pos hm]
  · intro hm
    rw [socks5ServeConn_greeting_eval, if_neg hm]

/-- Witness for C5, both branches: the greeting `05 01 00` is answered
`05 00`, and the greeting `05 01 02` (only GSSAPI offered) is answered
`05 FF` with the no-supported-auth failure. -/
theorem socks5_greeting_noauth_witness :
    socks5ServeConn [5, 1, 0] =
      ([socks5Version, noAuth] ++ (socks5RequestPhase []).1, (socks5RequestPhase []).2) ∧
    socks5ServeConn [5, 1, 2] = ([socks5Version, noAcceptable], S5Outcome.noSupportedAuth) :=
  ⟨(socks5_greeting_noauth 1 [0] [] rfl).1 (by decide),
   (socks5_greeting_noauth 1 [2] [] rfl).2 (by decide)⟩

/-- C9: when the request-phase address parse fails with the
unrecognized-address-type error, `ServeConn` writes the
`addrTypeNotSupported` (0x08) reply before returning the error; when the
parse fails with any other error, no reply is written beyond the greeting
answer. -/
theorem socks5_addr_err_reply (n : Nat) (methods : List Nat)
    (hlen : methods.length = n) (hm : noAuth ∈ methods)
    (h1 h2 : Nat) (abytes : List Nat) :
    (readAddr5 abytes = .error .unrecognizedAddrType →
      socks5ServeConn
          (socks5Version :: n :: (methods ++ socks5Version :: h1 :: h2 :: abytes)) =
        ([socks5Version, noAuth] ++ sendReply5 addrTypeNotSupported none,
         S5Outcome.addrErr S5AddrErr.unrecognizedAddrType)) ∧
    (readAddr5 abytes = .error .shortRead →
      socks5ServeConn
          (socks5Version :: n :: (methods ++ socks5Version :: h1 :: h2 :: abytes)) =
        ([socks5Version, noAuth], S5Outcome.addrErr S5AddrErr.shortRead)) := by
  subst hlen
  constructor
  · intro herr
    rw [socks5ServeConn_greeting_eval, if_pos hm]
    simp [socks5RequestPhase, herr]
  · intro herr
    rw [socks5ServeConn_greeting_eval, if_pos hm]
    simp [socks5RequestPhase, herr]

/-- Witness for C9, both branches: ATYP 0x02 is unrecognized and draws the
0x08 reply; a truncated ATYP 0x01 address is a short read and draws no
reply. -/
theorem socks5_addr_err_reply_witness :
    socks5ServeConn [5, 1, 0, 5, 1, 0, 2, 9, 9, 9, 9, 0, 80] =
      ([socks5Version, noAuth] ++ sendReply5 addrTypeNotSupported none,
       S5Outcome.addrErr S5AddrErr.unrecognizedAddrType) ∧
    socks5ServeConn [5, 1, 0, 5, 1, 0, 1, 9, 9] =
      ([socks5Version, noAuth], S5Outcome.addrErr S5AddrErr.shortRead) :=
  ⟨(socks5_addr_err_reply 1 [0] rfl (by decide) 1 0 [2, 9, 9, 9, 9, 0, 80]).1 rfl,
   (socks5_addr_err_reply 1 [0] rfl (by decide) 1 0 [1, 9, 9]).2 rfl⟩

/-- C1 counterexample: a connection whose first byte is `'G'` (0x47, an
HTTP GET) — neither 0x05 nor 0x04 — is not dispatched to the HTTP engine
by the part_000 demultiplexer; it is dispatched to no engine at all. -/
theorem part000_dispatch_counterexample :
    (71 ≠ 5 ∧ 71 ≠ 4) ∧
    (part000HandleConnection [71, 69, 84, 32]).1 ≠ some Engine.http ∧
    (part000HandleConnection [71, 69, 84, 32]).1 = none := by
  refine ⟨by decide, by decide, by decide⟩

/-- C1 (amended): the mixed `Proxy.handleConnection` demultiplexer
dispatches on the first byte — 0x05 to SOCKS5, 0x04 to SOCKS4, anything
else to HTTP; the part_000 demultiplexer reads three bytes and dispatches
0x05 to SOCKS5, 0x04 to SOCKS4, the prefix "CON" to HTTP, and any other
prefix to no engine. -/
theorem demux_dispatch (b b1 b2 : Nat) (rest : List Nat) :
    (mixedHandleConnection (5 :: rest) = some (Engine.socks5, 5 :: rest)) ∧
    (mixedHandleConnection (4 :: rest) = some (Engine.socks4, 4 :: rest)) ∧
    (b ≠ 5 → b ≠ 4 → mixedHandleConnection (b :: rest) = some (Engine.http, b :: rest)) ∧
    (part000HandleConnection (5 :: b1 :: b2 :: rest) = (some Engine.socks5, rest)) ∧
    (part000HandleConnection (4 :: b1 :: b2 :: rest) = (some Engine.socks4, rest)) ∧
    (part000HandleConnection (67 :: 79 :: 78 :: rest) = (some Engine.http, rest)) ∧
    (b ≠ 5 → b ≠ 4 → ¬(b = 67 ∧ b1 = 79 ∧ b2 = 78) →
      part000HandleConnection (b :: b1 :: b2 :: rest) = (none, rest)) := by
  refine ⟨?_, ?_, ?_, ?_, ?_, ?_, ?_⟩
  · simp [mixedHandleConnection, SwitchConn.read1, SwitchConn.unreadByte, SwitchConn.observed]
  · simp [mixedHandleConnection, SwitchConn.read1, SwitchConn.unreadByte, SwitchConn.observed]
  · intro h5 h4
    simp [mixedHandleConnection, SwitchConn.read1, SwitchConn.unreadByte,
      SwitchConn.observed, h5, h4]
  · simp [part000HandleConnection]
  · simp [part000HandleConnection]
  · simp [part000HandleConnection]
  · intro h5 h4 hcon
    simp [part000HandleConnection, h5, h4, hcon]

/-- Witness for the amended C1: a first byte of 0x47 reaches the HTTP
engine through the mixed demultiplexer. -/
theorem demux_dispatch_witness :
    mixedHandleConnection (71 :: [69]) = some (Engine.http, 71 :: [69]) :=
  (demux_dispatch 71 0 0 [69]).2.2.1 (by decide) (by decide)

/-- C2 counterexample: the client sends `05 01 00 05`; the part_000
demultiplexer selects the SOCKS5 engine but consumes the three greeting
bytes without restoring them, so the engine observes `[05]`, not the
stream the client sent. -/
theorem part000_stream_counterexample :
    (part000HandleConnection [5, 1, 0, 5]).1 = some Engine.socks5 ∧
    (part000HandleConnection [5, 1, 0, 5]).2 = [5] ∧
    (part000HandleConnection [5, 1, 0, 5]).2 ≠ [5, 1, 0, 5] := by
  refine ⟨by decide, by decide, by decide⟩

/-- C2 (amended): through the mixed demultiplexer the selected engine
observes exactly the byte stream the client sent (the peeked byte is
restored by `UnreadByte`); through the part_000 demultiplexer the engine
observes the client stream with its first three bytes removed. -/
theorem demux_stream_preservation (client : List Nat) (e : Engine) (s : List Nat)
    (b0 b1 b2 : Nat) (rest : List Nat) :
    (mixedHandleConnection client = some (e, s) → s = client) ∧
    (part000HandleConnection (b0 :: b1 :: b2 :: rest)).2 = rest := by
  constructor
  · intro h
    match client with
    | [] => simp [mixedHandleConnection, SwitchConn.read1] at h
    | b :: cs =>
      simp only [mixedHandleConnection, SwitchConn.read1, SwitchConn.unreadByte,
        SwitchConn.observed, Option.some.injEq, Prod.mk.injEq] at h
      exact h.2.symm
  · simp only [part000HandleConnection]
    split <;> [skip; split <;> [skip; split]] <;> simp_all

/-- Witness for the amended C2 at a concrete SOCKS5 greeting. -/
theorem demux_stream_preservation_witness :
    [5, 1, 0] = ([5, 1, 0] : List Nat) :=
  (demux_stream_preservation [5, 1, 0] Engine.socks5 [5, 1, 0] 0 0 0 []).1
    (by decide)

/-- C3 counterexample: on the built-in SOCKS5 CONNECT tunnel path
(no user handler), after `embedHandleConnect` returns, the client
connection and the dialed upstream connection have each been closed
twice — once by `tunnel` and once by the function's deferred `Close` —
not exactly once. -/
theorem embed_connect_close_counterexample :
    closeCount (socks5EmbedHandleConnect true 1 ⟨S5Host.ipv4 [127, 0, 0, 1], 1080⟩)
        CloseEnd.client = 2 ∧
    closeCount (socks5EmbedHandleConnect true 1 ⟨S5Host.ipv4 [127, 0, 0, 1], 1080⟩)
        CloseEnd.target = 2 ∧
    (2 : Nat) ≠ 1 := by
  refine ⟨by decide, by decide, by decide⟩

/-- C3 (amended): `tunnel` itself closes each endpoint exactly once on
exit, but `embedHandleConnect` closes each endpoint a second time through
its deferred `Close` calls, so after the engine returns from a tunneled
CONNECT each endpoint has been closed exactly twice (and on a failed dial
the client connection once, the never-dialed upstream zero times). -/
theorem embed_connect_close_counts (r : Nat) (bind : S5Addr) :
    ((tunnelCloses CloseEnd.target CloseEnd.client).count CloseEnd.client = 1 ∧
     (tunnelCloses CloseEnd.target CloseEnd.client).count CloseEnd.target = 1) ∧
    (closeCount (socks5EmbedHandleConnect true r bind) CloseEnd.client = 2 ∧
     closeCount (socks5EmbedHandleConnect true r bind) CloseEnd.target = 2) ∧
    (closeCount (socks5EmbedHandleConnect false r bind) CloseEnd.client = 1 ∧
     closeCount (socks5EmbedHandleConnect false r bind) CloseEnd.target = 0) := by
  refine ⟨⟨by decide, by decide⟩, ⟨?_, ?_⟩, ⟨?_, ?_⟩⟩ <;>
    simp [closeCount, socks5EmbedHandleConnect, tunnelCloses, List.count_cons]

-- Helpers for the UDP relay state machine.
theorem assocStep_sourceAddr (s : AssocState) (src : UAddr) (data : List Nat) :
    ((assocStep s src data).1).sourceAddr =
      (if s.sourceAddr = none then some src else s.sourceAddr) := by
  unfold assocStep
  by_cases h : s.sourceAddr = none <;>
    simp only [h, if_true, if_false, ite_true, ite_false] <;>
    repeat' (first | rfl | split)

theorem assocStep_targetAddr_mono (s : AssocState) (src : UAddr) (data : List Nat)
    (t : UAddr) (h : s.targetAddr = some t) :
    ((assocStep s src data).1).targetAddr = some t := by
  unfold assocStep
  by_cases hs : s.sourceAddr = none <;>
    simp only [hs, if_true, if_false, ite_true, ite_false] <;>
    repeat' (first | rfl | split | simp_all)

theorem assocStep_target_latch (s : AssocState) (src : UAddr) (data : List Nat)
    (addr : S5Addr) (rest : List Nat)
    (ha : ¬ s.sourceAddr = none)
    (hsrc : s.wantSource = src.str)
    (hlen : ¬ data.length < 3)
    (hparse : readAddr5 (data.drop 3) = .ok (addr, rest))
    (htgt : s.targetAddr = none) :
    ((assocStep s src data).1).targetAddr = some (addrToUDP addr) := by
  unfold assocStep
  simp only [if_neg ha, if_pos hsrc, if_neg hlen, hparse, if_pos htgt]
  repeat' (first | rfl | split)

theorem assocStep_mismatch_drop (s : AssocState) (src : UAddr) (data : List Nat)
    (t : UAddr) (addr : S5Addr) (rest : List Nat)
    (hsome : ¬ s.sourceAddr = none)
    (htgt : s.targetAddr = some t)
    (hsrc : s.wantSource = src.str)
    (hlen : ¬ data.length < 3)
    (hparse : readAddr5 (data.drop 3) = .ok (addr, rest))
    (hmm : s5AddrStr addr ≠ s.wantTarget) :
    assocStep s src data = (s, none) := by
  unfold assocStep
  simp only [if_neg hsome, if_pos hsrc, if_neg hlen, hparse,
    if_neg (show ¬s.targetAddr = none by simp [htgt]), if_pos hmm]

theorem assocRun_source_mono (ds : List (UAddr × List Nat)) (s : AssocState) (a : UAddr)
    (h : s.sourceAddr = some a) : ((assocRun s ds).1).sourceAddr = some a := by
  induction ds generalizing s with
  | nil => simpa [assocRun]
  | cons d ds ih =>
    obtain ⟨src, data⟩ := d
    simp only [assocRun]
    apply ih
    rw [assocStep_sourceAddr, if_neg (by simp [h]), h]

theorem assocRun_target_mono (ds : List (UAddr × List Nat)) (s : AssocState) (t : UAddr)
    (h : s.targetAddr = some t) : ((assocRun s ds).1).targetAddr = some t := by
  induction ds generalizing s with
  | nil => simpa [assocRun]
  | cons d ds ih =>
    obtain ⟨src, data⟩ := d
    simp only [assocRun]
    apply ih
    exact assocStep_targetAddr_mono _ _ _ _ h

/-- C8: across one UDP association, `sourceAddr` is latched to the sender
of the first datagram and `targetAddr` to the target parsed from the first
well-formed client-direction packet; neither is ever re-assigned once set
(per step and across any whole run), and every client-direction packet
whose parsed header target differs from the latched target is dropped —
the step forwards nothing and leaves the state unchanged. -/
theorem udp_assoc_latching :
    (∀ (s : AssocState) (src : UAddr) (data : List Nat) (a : UAddr),
      s.sourceAddr = some a → ((assocStep s src data).1).sourceAddr = some a) ∧
    (∀ (s : AssocState) (src : UAddr) (data : List Nat) (t : UAddr),
      s.targetAddr = some t → ((assocStep s src data).1).targetAddr = some t) ∧
    (∀ (ds : List (UAddr × List Nat)) (s : AssocState) (a : UAddr),
      s.sourceAddr = some a → ((assocRun s ds).1).sourceAddr = some a) ∧
    (∀ (ds : List (UAddr × List Nat)) (s : AssocState) (t : UAddr),
      s.targetAddr = some t → ((assocRun s ds).1).targetAddr = some t) ∧
    (∀ (s : AssocState) (src : UAddr) (data : List Nat),
      s.sourceAddr = none → ((assocStep s src data).1).sourceAddr = some src) ∧
    (∀ (s : AssocState) (src : UAddr) (data : List Nat) (addr : S5Addr) (rest : List Nat),
      ¬ s.sourceAddr = none → s.wantSource = src.str → ¬ data.length < 3 →
      readAddr5 (data.drop 3) = .ok (addr, rest) → s.targetAddr = none →
      ((assocStep s src data).1).targetAddr = some (addrToUDP addr)) ∧
    (∀ (s : AssocState) (src : UAddr) (data : List Nat) (t : UAddr) (addr : S5Addr)
        (rest : List Nat),
      ¬ s.sourceAddr = none → s.targetAddr = some t → s.wantSource = src.str →
      ¬ data.length < 3 → readAddr5 (data.drop 3) = .ok (addr, rest) →
      s5AddrStr addr ≠ s.wantTarget →
      assocStep s src data = (s, none)) := by
  refine ⟨?_, ?_, ?_, ?_, ?_, ?_, ?_⟩
  · intro s src data a h
    rw [assocStep_sourceAddr, if_neg (by simp [h]), h]
  · intro s src data t h
    exact assocStep_targetAddr_mono s src data t h
  · intro ds s a h
    exact assocRun_source_mono ds s a h
  · intro ds s t h
    exact assocRun_target_mono ds s t h
  · intro s src data h
    rw [assocStep_sourceAddr, if_pos h]
  · intro s src data addr rest h1 h2 h3 h4 h5
    exact assocStep_target_latch s src data addr rest h1 h2 h3 h4 h5
  · intro s src data t addr rest h1 h2 h3 h4 h5 h6
    exact assocStep_mismatch_drop s src data t addr rest h1 h2 h3 h4 h5 h6

/-- Witness for C8 at a concrete association: a client-direction packet
addressed to `9.9.9.9:53` while the latched target is `8.8.8.8:53` is
dropped without changing the state. -/
theorem udp_assoc_latching_witness :
    assocStep
        ⟨some ⟨some [10, 0, 0, 1], 5000⟩, (UAddr.mk (some [10, 0, 0, 1]) 5000).str,
         some ⟨some [8, 8, 8, 8], 53⟩, (UAddr.mk (some [8, 8, 8, 8]) 53).str, none⟩
        ⟨some [10, 0, 0, 1], 5000⟩ [0, 0, 0, 1, 9, 9, 9, 9, 0, 53] =
      (⟨some ⟨some [10, 0, 0, 1], 5000⟩, (UAddr.mk (some [10, 0, 0, 1]) 5000).str,
        some ⟨some [8, 8, 8, 8], 53⟩, (UAddr.mk (some [8, 8, 8, 8]) 53).str, none⟩, none) :=
  udp_assoc_latching.2.2.2.2.2.2
    ⟨some ⟨some [10, 0, 0, 1], 5000⟩, (UAddr.mk (some [10, 0, 0, 1]) 5000).str,
     some ⟨some [8, 8, 8, 8], 53⟩, (UAddr.mk (some [8, 8, 8, 8]) 53).str, none⟩
    ⟨some [10, 0, 0, 1], 5000⟩ [0, 0, 0, 1, 9, 9, 9, 9, 0, 53]
    ⟨some [8, 8, 8, 8], 53⟩ ⟨S5Host.ipv4 [9, 9, 9, 9], 53⟩ []
    (by decide) rfl rfl (by decide) rfl (by decide)
